import Mathlib

/-!
Verification of the `ModelLoader` component of `localGPT/model/loader.py`.

Python strings are embedded as `List Char` (`PyStr`); Python `None` as
`Option`; the external machine-learning runtime (transformers, auto_gptq,
llama_cpp, torch) is an oracle (`Runtime`) supplying the outcomes of the
external calls, and every strategy records the calls it makes and the log
lines it emits in an event trace.
-/

/-- A Python string, embedded as its list of characters. -/
abbrev PyStr := List Char

/-- Python `str.lower()`. -/
def pyLower (s : PyStr) : PyStr := s.map Char.toLower

/-- Python `a or b` for an optional string `a`: `None` and the empty string
are falsy and fall through to `b`. -/
def pyOrStr (v : Option PyStr) (d : PyStr) : PyStr :=
  match v with
  | none => d
  | some s => if s = [] then d else s

/-- Python `b or False` for an optional bool `b`. -/
def pyOrFalse (v : Option Bool) : Bool := v.getD false

/-- Python `s.endswith(suffix)`. -/
def pyEndsWith (s suffix : PyStr) : Bool := decide (suffix <:+ s)

/-- Python `s.split(sep)` for a single-character separator. -/
def pySplit (sep : Char) : List Char → List (List Char)
  | [] => [[]]
  | c :: cs =>
      if c = sep then [] :: pySplit sep cs
      else (c :: (pySplit sep cs).headI) :: (pySplit sep cs).tail

/-- Python `sep.join(parts)` for a single-character separator. -/
def pyJoin (sep : Char) : List (List Char) → List Char
  | [] => []
  | [x] => x
  | x :: y :: ys => x ++ sep :: pyJoin sep (y :: ys)

/-- Modelled from the spec: the process-wide default constants
`DEFAULT_DEVICE_TYPE`, `DEFAULT_MODEL_TYPE`, `DEFAULT_MODEL_REPOSITORY`,
`DEFAULT_MODEL_SAFETENSORS` are imported from the `localGPT` package
root, which is not part of the sources; the spec describes them as a
configuration-defaults structure supplied at startup. -/
structure Defaults where
  DEFAULT_DEVICE_TYPE : PyStr
  DEFAULT_MODEL_TYPE : PyStr
  DEFAULT_MODEL_REPOSITORY : PyStr
  DEFAULT_MODEL_SAFETENSORS : PyStr
deriving DecidableEq

/-- The five configuration fields stored on a `ModelLoader` instance. -/
structure ModelLoader where
  device_type : PyStr
  model_type : PyStr
  model_repository : PyStr
  model_safetensors : PyStr
  use_triton : Bool
deriving DecidableEq

/-- `ModelLoader.__init__` (loader.py lines 49-73). -/
def ModelLoader.init (d : Defaults)
    (device_type model_type model_repository model_safetensors : Option PyStr)
    (use_triton : Option Bool) : ModelLoader :=
  { device_type := pyLower (pyOrStr device_type d.DEFAULT_DEVICE_TYPE)
    model_type := pyLower (pyOrStr model_type d.DEFAULT_MODEL_TYPE)
    model_repository := pyOrStr model_repository d.DEFAULT_MODEL_REPOSITORY
    model_safetensors := pyOrStr model_safetensors d.DEFAULT_MODEL_SAFETENSORS
    use_triton := pyOrFalse use_triton }

/-- The `.safetensors` normalization step of `load_gptq_model`
(loader.py lines 159-161): split on `.`, drop the last segment, rejoin. -/
def normalizeSafetensors (s : PyStr) : PyStr :=
  if pyEndsWith s ".safetensors".data then
    pyJoin '.' ((pySplit '.' s).dropLast)
  else s

/-- Value of a keyword argument passed to an external loader; `float16`
stands for `torch.float16`. -/
inductive KwVal where
  | bool (b : Bool)
  | str (s : PyStr)
  | float16
deriving DecidableEq

/-- A Python kwargs dictionary, as the ordered association list the source
builds. -/
abbrev Kwargs := List (PyStr × KwVal)

/-- Observable actions of the loader: log lines and calls into the external
machine-learning runtime. -/
inductive Event where
  | logInfo (msg : PyStr)
  | logWarning (msg : PyStr)
  | logError (msg : PyStr)
  | callAutoConfigFromPretrained (repo : PyStr)
  | callAutoTokenizerFromPretrained (repo : PyStr) (useFast : Option Bool)
  | callAutoModelFromPretrained (repo : PyStr) (kwargs : Kwargs)
  | callLlamaTokenizerFromPretrained (repo : PyStr)
  | callLlamaFromPretrained (repo : PyStr)
  | callAutoGPTQFromQuantized (repo : PyStr) (kwargs : Kwargs)
  | callTieWeights
  | callGenerationConfigFromPretrained (repo : PyStr)
deriving DecidableEq

/-- Outcome of the external `AutoModelForCausalLM.from_pretrained` call:
either a model handle (with whether it is a tuple, which controls weight
tying), or a `torch.cuda.OutOfMemoryError`. -/
inductive LoadAttempt (M : Type) where
  | ok (model : M) (isTuple : Bool)
  | oom (msg : PyStr)
deriving DecidableEq

/-- Oracle for the external machine-learning runtime: the handles and
outcomes its calls would produce. -/
structure Runtime (M T G : Type) where
  hfAttempt : LoadAttempt M
  hfTokenizer : T
  llamaModel : M
  llamaTokenizer : T
  gptqModel : M
  gptqTokenizer : T
  generationConfig : G
deriving DecidableEq

/-- Result of one loading strategy: a `(model, tokenizer)` pair, or a
`sys.exit` with the given status code. -/
inductive StratOutcome (M T : Type) where
  | ok (model : M) (tokenizer : T)
  | exited (code : Nat)
deriving DecidableEq

/-- The kwargs dictionary built by `load_huggingface_model`
(loader.py lines 91-106). -/
def huggingfaceKwargs (self : ModelLoader) : Kwargs :=
  let kwargs : Kwargs :=
    [("low_cpu_mem_usage".data, .bool true),
     ("resume_download".data, .bool true),
     ("trust_remote_code".data, .bool false)]
  if self.device_type ≠ "cpu".data then
    kwargs ++ [("device_map".data, .str self.device_type),
               ("torch_dtype".data, .float16)]
  else kwargs

/-- `ModelLoader.load_huggingface_model` (loader.py lines 75-121): the
full-model strategy, returning its outcome, the post-state of `self`, and
the trace of its calls and log lines. -/
def load_huggingface_model {M T G : Type} (self : ModelLoader)
    (rt : Runtime M T G) : StratOutcome M T × ModelLoader × List Event :=
  let kwargs := huggingfaceKwargs self
  let pre : List Event :=
    [.logInfo "Using AutoModelForCausalLM for full models".data,
     .callAutoConfigFromPretrained self.model_repository,
     .logInfo ("Configuration loaded for ".data ++ self.model_repository),
     .callAutoTokenizerFromPretrained self.model_repository none,
     .logInfo ("Tokenizer loaded for ".data ++ self.model_repository),
     .callAutoModelFromPretrained self.model_repository kwargs]
  match rt.hfAttempt with
  | .oom msg =>
      (.exited 1, self,
       pre ++
        [.logError "Encountered CUDA out of memory error while loading the model.".data,
         .logError msg])
  | .ok m isTuple =>
      let post : List Event :=
        [.logInfo ("Model loaded for ".data ++ self.model_repository)]
      let post := if ¬ isTuple then
          post ++ [.callTieWeights,
            .logWarning "Model Weights Tied: Effectiveness depends on the specific type of model.".data]
        else post
      (.ok m rt.hfTokenizer, self, pre ++ post)

/-- `ModelLoader.load_huggingface_llama_model` (loader.py lines 123-139). -/
def load_huggingface_llama_model {M T G : Type} (self : ModelLoader)
    (rt : Runtime M T G) : StratOutcome M T × ModelLoader × List Event :=
  (.ok rt.llamaModel rt.llamaTokenizer, self,
   [.logInfo "Using LlamaTokenizer".data,
    .callLlamaTokenizerFromPretrained self.model_repository,
    .logInfo ("Tokenizer loaded for ".data ++ self.model_repository),
    .callLlamaFromPretrained self.model_repository,
    .logInfo ("Model loaded for ".data ++ self.model_repository)])

/-- `ModelLoader.load_ggml_model` (loader.py lines 141-144): a bare `pass`,
so the call returns Python `None`, touches nothing and raises nothing. -/
def load_ggml_model {M T : Type} (self : ModelLoader) :
    Option (M × T) × ModelLoader × List Event :=
  (none, self, [])

/-- The kwargs dictionary built by `load_gptq_model`
(loader.py lines 167-185), from the already-normalized state of `self`. -/
def gptqKwargs (self : ModelLoader) : Kwargs :=
  let kwargs : Kwargs :=
    [("low_cpu_mem_usage".data, .bool true),
     ("resume_download".data, .bool true),
     ("trust_remote_code".data, .bool false),
     ("use_safetensors".data, .bool true),
     ("device_map".data, .str "auto".data),
     ("model_safetensors".data, .str self.model_safetensors)]
  if self.device_type ≠ "cpu".data then
    kwargs ++ [("use_cuda_fp16".data, .bool true),
               ("use_triton".data, .bool self.use_triton),
               ("device".data, .str (self.device_type ++ ":0".data))]
  else kwargs

/-- `ModelLoader.load_gptq_model` (loader.py lines 146-190): the quantized
strategy; note the in-place rewrite of `self.model_safetensors`. -/
def load_gptq_model {M T G : Type} (self : ModelLoader)
    (rt : Runtime M T G) : StratOutcome M T × ModelLoader × List Event :=
  let pre : List Event :=
    [.logInfo "Using AutoGPTQForCausalLM for quantized models".data,
     .logWarning "GGML models may supersede GPTQ models in future releases".data]
  let self' :=
    { self with model_safetensors := normalizeSafetensors self.model_safetensors }
  let pre := if pyEndsWith self.model_safetensors ".safetensors".data then
      pre ++ [.logInfo ("Stripped ".data ++ self'.model_safetensors ++ ". Moving on.".data)]
    else pre
  (.ok rt.gptqModel rt.gptqTokenizer, self',
   pre ++
    [.callAutoTokenizerFromPretrained self.model_repository (some true),
     .logInfo ("Tokenizer loaded for ".data ++ self.model_repository),
     .callAutoGPTQFromQuantized self.model_repository (gptqKwargs self'),
     .logInfo ("Model loaded for ".data ++ self.model_repository)])

/-- The fixed decoding parameters of the text-generation pipeline
(loader.py lines 209-212); fractional values are exact rationals. -/
structure DecodingParams where
  max_length : Nat
  temperature : Rat
  top_p : Rat
  repetition_penalty : Rat
deriving DecidableEq

/-- The object built by `transformers.pipeline(...)` in `create_pipeline`. -/
structure Pipe (M T G : Type) where
  task : PyStr
  model : M
  tokenizer : T
  generation_config : G
  params : DecodingParams
deriving DecidableEq

/-- The `langchain` wrapper returned by `create_pipeline`. -/
structure HuggingFacePipeline (M T G : Type) where
  pipeline : Pipe M T G
deriving DecidableEq

/-- `ModelLoader.create_pipeline` (loader.py lines 192-215). -/
def create_pipeline {M T G : Type} (model : M) (tokenizer : T)
    (generation_config : G) : HuggingFacePipeline M T G :=
  { pipeline :=
    { task := "text-generation".data
      model := model
      tokenizer := tokenizer
      generation_config := generation_config
      params :=
      { max_length := 512
        temperature := 0
        top_p := 95 / 100
        repetition_penalty := 115 / 100 } } }

/-- A Python exception raised out of `load_model`. -/
inductive PyError where
  | notImplementedError (msg : PyStr)
  | attributeError (msg : PyStr)
deriving DecidableEq

/-- Result of `load_model`: the wrapped pipeline, a raised exception, or a
`sys.exit`. -/
inductive LoadOutcome (M T G : Type) where
  | ok (llm : HuggingFacePipeline M T G)
  | raised (e : PyError)
  | exited (code : Nat)
deriving DecidableEq

/-- The message of the `AttributeError` raised on an unrecognized
`model_type` (loader.py lines 234-241, adjacent string literals
concatenated). -/
def unsupportedMsg : PyStr :=
  ("Unsupported model type given. " ++ "Expected one of: " ++ "huggingface, "
    ++ "huggingface-llama, " ++ "ggml, " ++ "gptq").data

/-- The tail of `load_model` after a strategy has produced a pair
(loader.py lines 243-253): fetch the generation config and assemble the
pipeline. -/
def finishLoad {M T G : Type} (model : M) (tokenizer : T)
    (self : ModelLoader) (tr : List Event) (rt : Runtime M T G) :
    LoadOutcome M T G × ModelLoader × List Event :=
  (.ok (create_pipeline model tokenizer rt.generationConfig), self,
   tr ++ [.callGenerationConfigFromPretrained self.model_repository,
          .logInfo "Local LLM Loaded".data])

/-- `ModelLoader.load_model` (loader.py lines 217-253): dispatch on
`self.model_type.lower()`, then fetch the generation config and build the
pipeline. -/
def load_model {M T G : Type} (self : ModelLoader) (rt : Runtime M T G) :
    LoadOutcome M T G × ModelLoader × List Event :=
  if pyLower self.model_type = "huggingface".data then
    match load_huggingface_model self rt with
    | (.ok m t, self', tr) => finishLoad m t self' tr rt
    | (.exited code, self', tr) => (.exited code, self', tr)
  else if pyLower self.model_type = "huggingface-llama".data then
    match load_huggingface_llama_model self rt with
    | (.ok m t, self', tr) => finishLoad m t self' tr rt
    | (.exited code, self', tr) => (.exited code, self', tr)
  else if pyLower self.model_type = "gptq".data then
    match load_gptq_model self rt with
    | (.ok m t, self', tr) => finishLoad m t self' tr rt
    | (.exited code, self', tr) => (.exited code, self', tr)
  else if pyLower self.model_type = "ggml".data then
    (.raised (.notImplementedError "GGML support is in research and development".data),
     self, [])
  else
    (.raised (.attributeError unsupportedMsg), self, [])

/-- Join a list of strings with a `", "` separator, to state how the
`AttributeError` message enumerates the recognized values. -/
def joinCommaSpace : List PyStr → PyStr
  | [] => []
  | [x] => x
  | x :: y :: ys => x ++ ", ".data ++ joinCommaSpace (y :: ys)

/-- Concrete defaults used by witnesses. -/
def sampleDefaults : Defaults :=
  ⟨"cpu".data, "huggingface".data, "TheBloke/model".data, "model.safetensors".data⟩

/-- A concrete runtime whose full-model load succeeds. -/
def okRuntime : Runtime Unit Unit Unit := ⟨.ok () false, (), (), (), (), (), ()⟩

/-- A concrete runtime whose full-model load raises out-of-memory. -/
def oomRuntime : Runtime Unit Unit Unit :=
  ⟨.oom "CUDA out of memory".data, (), (), (), (), (), ()⟩

/-- A concrete loader with an unrecognized model type. -/
def unknownTypeLoader : ModelLoader :=
  ⟨"cpu".data, "unknown-value".data, "repo".data, "weights".data, false⟩

/-- A concrete loader selecting the full-model strategy. -/
def hfLoader : ModelLoader :=
  ⟨"cuda".data, "huggingface".data, "repo".data, "weights".data, false⟩

/-- A concrete loader selecting the ggml strategy. -/
def ggmlLoader : ModelLoader :=
  ⟨"cpu".data, "ggml".data, "repo".data, "weights".data, false⟩

/-- A concrete loader selecting the quantized strategy on a GPU device. -/
def gptqLoader : ModelLoader :=
  ⟨"cuda".data, "gptq".data, "repo".data, "w.safetensors".data, true⟩
-- Basic lemmas about the string model.

theorem pySplit_ne_nil (sep : Char) (l : List Char) : pySplit sep l ≠ [] := by
  cases l with
  | nil => simp [pySplit]
  | cons c cs =>
      simp only [pySplit]
      split <;> simp

theorem pyJoin_pySplit (sep : Char) (l : List Char) :
    pyJoin sep (pySplit sep l) = l := by
  induction l with
  | nil => rfl
  | cons c cs ih =>
      simp only [pySplit]
      rcases h : pySplit sep cs with _ | ⟨d, ds⟩
      · exact absurd h (pySplit_ne_nil sep cs)
      · rw [h] at ih
        split
        · next hc =>
            subst hc
            cases ds <;> simp_all [pyJoin]
        · next hc =>
            cases ds <;> simp_all [pyJoin, List.headI, List.tail]

theorem pySplit_no_sep (sep : Char) (w : List Char) (h : ∀ c ∈ w, c ≠ sep) :
    pySplit sep w = [w] := by
  induction w with
  | nil => rfl
  | cons c cs ih =>
      have hc : c ≠ sep := h c (List.mem_cons_self c cs)
      have hcs : ∀ x ∈ cs, x ≠ sep := fun x hx => h x (List.mem_cons_of_mem c hx)
      simp only [pySplit, if_neg hc, ih hcs]
      rfl

theorem pySplit_append_sep (sep : Char) (t w : List Char) :
    pySplit sep (t ++ sep :: w) = pySplit sep t ++ pySplit sep w := by
  induction t with
  | nil => simp [pySplit]
  | cons c cs ih =>
      simp only [List.cons_append, pySplit, List.append_eq, ih]
      split
      · rfl
      · rcases h : pySplit sep cs with _ | ⟨d, ds⟩
        · exact absurd h (pySplit_ne_nil sep cs)
        · simp [h, List.headI, List.tail]

theorem normalizeSafetensors_strip (t : PyStr) :
    normalizeSafetensors (t ++ ".safetensors".data) = t := by
  have hsuf : pyEndsWith (t ++ ".safetensors".data) ".safetensors".data = true := by
    unfold pyEndsWith
    exact decide_eq_true ⟨t, rfl⟩
  have hw : ∀ c ∈ "safetensors".data, c ≠ '.' := by decide
  have hdat : (".safetensors".data : List Char) = '.' :: "safetensors".data := by decide
  unfold normalizeSafetensors
  rw [if_pos hsuf, hdat, pySplit_append_sep, pySplit_no_sep _ _ hw,
    List.dropLast_concat, pyJoin_pySplit]

theorem normalizeSafetensors_no_suffix (s : PyStr)
    (h : ¬ (".safetensors".data <:+ s)) : normalizeSafetensors s = s := by
  unfold normalizeSafetensors pyEndsWith
  simp [h]


-- Dispatch lemmas: how `load_model` behaves on each `model_type` branch.

theorem load_model_hf_eq {M T G : Type} (self : ModelLoader) (rt : Runtime M T G)
    (h : pyLower self.model_type = "huggingface".data) :
    load_model self rt =
      match load_huggingface_model self rt with
      | (.ok m t, self', tr) => finishLoad m t self' tr rt
      | (.exited code, self', tr) => (.exited code, self', tr) := by
  unfold load_model
  rw [if_pos h]

theorem load_model_llama_eq {M T G : Type} (self : ModelLoader) (rt : Runtime M T G)
    (h : pyLower self.model_type = "huggingface-llama".data) :
    load_model self rt =
      match load_huggingface_llama_model self rt with
      | (.ok m t, self', tr) => finishLoad m t self' tr rt
      | (.exited code, self', tr) => (.exited code, self', tr) := by
  have h1 : pyLower self.model_type ≠ "huggingface".data := by
    rw [h]; decide
  unfold load_model
  rw [if_neg h1, if_pos h]

theorem load_model_gptq_eq {M T G : Type} (self : ModelLoader) (rt : Runtime M T G)
    (h : pyLower self.model_type = "gptq".data) :
    load_model self rt =
      match load_gptq_model self rt with
      | (.ok m t, self', tr) => finishLoad m t self' tr rt
      | (.exited code, self', tr) => (.exited code, self', tr) := by
  have h1 : pyLower self.model_type ≠ "huggingface".data := by
    rw [h]; decide
  have h2 : pyLower self.model_type ≠ "huggingface-llama".data := by
    rw [h]; decide
  unfold load_model
  rw [if_neg h1, if_neg h2, if_pos h]

theorem load_model_ggml_eq {M T G : Type} (self : ModelLoader) (rt : Runtime M T G)
    (h : pyLower self.model_type = "ggml".data) :
    load_model self rt =
      (.raised (.notImplementedError "GGML support is in research and development".data),
       self, []) := by
  have h1 : pyLower self.model_type ≠ "huggingface".data := by
    rw [h]; decide
  have h2 : pyLower self.model_type ≠ "huggingface-llama".data := by
    rw [h]; decide
  have h3 : pyLower self.model_type ≠ "gptq".data := by
    rw [h]; decide
  unfold load_model
  rw [if_neg h1, if_neg h2, if_neg h3, if_pos h]

theorem load_model_other_eq {M T G : Type} (self : ModelLoader) (rt : Runtime M T G)
    (h1 : pyLower self.model_type ≠ "huggingface".data)
    (h2 : pyLower self.model_type ≠ "huggingface-llama".data)
    (h3 : pyLower self.model_type ≠ "gptq".data)
    (h4 : pyLower self.model_type ≠ "ggml".data) :
    load_model self rt = (.raised (.attributeError unsupportedMsg), self, []) := by
  unfold load_model
  rw [if_neg h1, if_neg h2, if_neg h3, if_neg h4]

-- Claim theorems.

/-- Claim C1: for every loader whose normalized `model_type` is none of
huggingface, huggingface-llama, gptq, ggml, `load_model` raises the
`AttributeError` (UnsupportedConfiguration) without running any strategy
(empty trace, result independent of the runtime oracle), and its message
is a fixed header followed by an enumeration of exactly the four
recognized values. -/
theorem load_model_unsupported_model_type {M T G : Type}
    (self : ModelLoader) (rt rt' : Runtime M T G)
    (h : pyLower self.model_type ∉
      ["huggingface".data, "huggingface-llama".data, "gptq".data, "ggml".data]) :
    load_model self rt = (.raised (.attributeError unsupportedMsg), self, []) ∧
    load_model self rt = load_model self rt' ∧
    unsupportedMsg = "Unsupported model type given. Expected one of: ".data ++
      joinCommaSpace
        ["huggingface".data, "huggingface-llama".data, "ggml".data, "gptq".data] ∧
    ["huggingface".data, "huggingface-llama".data, "ggml".data, "gptq".data].Perm
      ["huggingface".data, "huggingface-llama".data, "gptq".data, "ggml".data] := by
  simp only [List.mem_cons, List.not_mem_nil, or_false, not_or] at h
  obtain ⟨h1, h2, h3, h4⟩ := h
  refine ⟨load_model_other_eq self rt h1 h2 h3 h4, ?_, by decide, by decide⟩
  rw [load_model_other_eq self rt h1 h2 h3 h4,
    load_model_other_eq self rt' h1 h2 h3 h4]

/-- Witness for C1: a loader with `model_type = "unknown-value"`. -/
theorem load_model_unsupported_model_type_witness :
    load_model unknownTypeLoader okRuntime =
      (.raised (.attributeError unsupportedMsg), unknownTypeLoader, []) :=
  (load_model_unsupported_model_type unknownTypeLoader okRuntime oomRuntime
    (by decide)).1

/-- Claim C2: when the full-model strategy is selected and the external
loader raises out-of-memory, `load_model` ends in `sys.exit` with a
non-zero status, the condition is logged, and no catchable exception
reaches the caller. -/
theorem load_model_oom_exits {M T G : Type} (self : ModelLoader)
    (rt : Runtime M T G) (msg : PyStr)
    (hty : pyLower self.model_type = "huggingface".data)
    (hoom : rt.hfAttempt = .oom msg) :
    (∃ code, code ≠ 0 ∧ (load_model self rt).1 = .exited code) ∧
    Event.logError "Encountered CUDA out of memory error while loading the model.".data
      ∈ (load_model self rt).2.2 ∧
    Event.logError msg ∈ (load_model self rt).2.2 ∧
    ∀ e : PyError, (load_model self rt).1 ≠ .raised e := by
  rw [load_model_hf_eq self rt hty]
  refine ⟨⟨1, one_ne_zero, ?_⟩, ?_, ?_, ?_⟩ <;>
    simp [load_huggingface_model, hoom]

/-- Witness for C2: a huggingface loader against an out-of-memory runtime. -/
theorem load_model_oom_exits_witness :
    (∃ code, code ≠ 0 ∧ (load_model hfLoader oomRuntime).1 = .exited code) ∧
    Event.logError "Encountered CUDA out of memory error while loading the model.".data
      ∈ (load_model hfLoader oomRuntime).2.2 ∧
    Event.logError "CUDA out of memory".data ∈ (load_model hfLoader oomRuntime).2.2 ∧
    ∀ e : PyError, (load_model hfLoader oomRuntime).1 ≠ .raised e :=
  load_model_oom_exits hfLoader oomRuntime "CUDA out of memory".data (by decide) rfl

/-- Claim C3: the quantized strategy's normalization maps any string that
ends with the literal suffix `.safetensors` to the same string with
exactly that suffix stripped, and leaves any other string unchanged. -/
theorem normalizeSafetensors_spec (s : PyStr) :
    (∀ t, s = t ++ ".safetensors".data → normalizeSafetensors s = t) ∧
    (¬ (".safetensors".data <:+ s) → normalizeSafetensors s = s) := by
  constructor
  · rintro t rfl
    exact normalizeSafetensors_strip t
  · exact normalizeSafetensors_no_suffix s

/-- Witness for C3: `"weights.safetensors"` is stripped to `"weights"`,
and `"weights"` is unchanged. -/
theorem normalizeSafetensors_spec_witness :
    normalizeSafetensors "weights.safetensors".data = "weights".data ∧
    normalizeSafetensors "weights".data = "weights".data :=
  ⟨(normalizeSafetensors_spec "weights.safetensors".data).1 "weights".data (by decide),
   (normalizeSafetensors_spec "weights".data).2 (by decide)⟩

/-- Claim C4: constructing a `ModelLoader` with an absent (`None`) or empty
value for a field stores the process-wide default (lower-cased for
`device_type` and `model_type`), a present non-empty value is stored
unchanged except for the lower-casing of `device_type` and `model_type`,
and an absent or false `use_triton` resolves to `false`; construction is a
pure record of the normalized fields. -/
theorem ModelLoader_init_spec (d : Defaults)
    (dt mt mr ms : Option PyStr) (ut : Option Bool) :
    ((dt = none ∨ dt = some []) →
      (ModelLoader.init d dt mt mr ms ut).device_type =
        pyLower d.DEFAULT_DEVICE_TYPE) ∧
    (∀ s, dt = some s → s ≠ [] →
      (ModelLoader.init d dt mt mr ms ut).device_type = pyLower s) ∧
    ((mt = none ∨ mt = some []) →
      (ModelLoader.init d dt mt mr ms ut).model_type =
        pyLower d.DEFAULT_MODEL_TYPE) ∧
    (∀ s, mt = some s → s ≠ [] →
      (ModelLoader.init d dt mt mr ms ut).model_type = pyLower s) ∧
    ((mr = none ∨ mr = some []) →
      (ModelLoader.init d dt mt mr ms ut).model_repository =
        d.DEFAULT_MODEL_REPOSITORY) ∧
    (∀ s, mr = some s → s ≠ [] →
      (ModelLoader.init d dt mt mr ms ut).model_repository = s) ∧
    ((ms = none ∨ ms = some []) →
      (ModelLoader.init d dt mt mr ms ut).model_safetensors =
        d.DEFAULT_MODEL_SAFETENSORS) ∧
    (∀ s, ms = some s → s ≠ [] →
      (ModelLoader.init d dt mt mr ms ut).model_safetensors = s) ∧
    ((ut = none ∨ ut = some false) →
      (ModelLoader.init d dt mt mr ms ut).use_triton = false) ∧
    (ut = some true → (ModelLoader.init d dt mt mr ms ut).use_triton = true) := by
  refine ⟨?_, ?_, ?_, ?_, ?_, ?_, ?_, ?_, ?_, ?_⟩
  · rintro (rfl | rfl) <;> simp [ModelLoader.init, pyOrStr]
  · rintro s rfl hs
    simp [ModelLoader.init, pyOrStr, hs]
  · rintro (rfl | rfl) <;> simp [ModelLoader.init, pyOrStr]
  · rintro s rfl hs
    simp [ModelLoader.init, pyOrStr, hs]
  · rintro (rfl | rfl) <;> simp [ModelLoader.init, pyOrStr]
  · rintro s rfl hs
    simp [ModelLoader.init, pyOrStr, hs]
  · rintro (rfl | rfl) <;> simp [ModelLoader.init, pyOrStr]
  · rintro s rfl hs
    simp [ModelLoader.init, pyOrStr, hs]
  · rintro (rfl | rfl) <;> simp [ModelLoader.init, pyOrFalse]
  · rintro rfl
    simp [ModelLoader.init, pyOrFalse]

/-- Witness for C4: absent device type takes the default, an uppercase
model type is lower-cased, a present basename and absent triton flag are
stored as given. -/
theorem ModelLoader_init_spec_witness :
    (ModelLoader.init sampleDefaults none (some "GPTQ".data) none
        (some "w.safetensors".data) none).device_type =
      pyLower sampleDefaults.DEFAULT_DEVICE_TYPE ∧
    (ModelLoader.init sampleDefaults none (some "GPTQ".data) none
        (some "w.safetensors".data) none).model_type = pyLower "GPTQ".data ∧
    (ModelLoader.init sampleDefaults none (some "GPTQ".data) none
        (some "w.safetensors".data) none).model_safetensors =
      "w.safetensors".data ∧
    (ModelLoader.init sampleDefaults none (some "GPTQ".data) none
        (some "w.safetensors".data) none).use_triton = false := by
  obtain ⟨h1, _, _, h4, _, _, _, h8, h9, _⟩ :=
    ModelLoader_init_spec sampleDefaults none (some "GPTQ".data) none
      (some "w.safetensors".data) none
  exact ⟨h1 (Or.inl rfl), h4 _ rfl (by decide), h8 _ rfl (by decide),
    h9 (Or.inl rfl)⟩

/-- Claim C5: a loader constructed with `model_type = "ggml"` in any letter
case makes `load_model` raise the `NotImplementedError` with an empty
trace: no tokenizer or model loading is ever attempted. -/
theorem load_model_ggml_raises {M T G : Type} (d : Defaults) (rt : Runtime M T G)
    (dt mr ms : Option PyStr) (ut : Option Bool) (mt : PyStr)
    (hmt : pyLower mt = "ggml".data) (hne : mt ≠ []) :
    load_model (ModelLoader.init d dt (some mt) mr ms ut) rt =
      (.raised (.notImplementedError
        "GGML support is in research and development".data),
       ModelLoader.init d dt (some mt) mr ms ut, []) := by
  apply load_model_ggml_eq
  have hfield : (ModelLoader.init d dt (some mt) mr ms ut).model_type =
      pyLower mt := by
    simp [ModelLoader.init, pyOrStr, hne]
  rw [hfield, hmt]
  decide

/-- Witness for C5: `model_type = "GGML"` (uppercase). -/
theorem load_model_ggml_raises_witness :
    load_model (ModelLoader.init sampleDefaults none (some "GGML".data) none
        none none) okRuntime =
      (.raised (.notImplementedError
        "GGML support is in research and development".data),
       ModelLoader.init sampleDefaults none (some "GGML".data) none none none,
       []) :=
  load_model_ggml_raises sampleDefaults okRuntime none none none none
    "GGML".data (by decide) (by decide)

/-- Claim C6: the full-model strategy passes exactly `huggingfaceKwargs` to
the external loader; on `device_type = "cpu"` those options carry no
device-map and no half-precision entry, and on any other device they carry
a device map equal to `device_type` and `torch.float16`. -/
theorem huggingface_kwargs_device_options {M T G : Type}
    (self : ModelLoader) (rt : Runtime M T G) :
    Event.callAutoModelFromPretrained self.model_repository (huggingfaceKwargs self)
      ∈ (load_huggingface_model self rt).2.2 ∧
    (self.device_type = "cpu".data →
      (huggingfaceKwargs self).lookup "device_map".data = none ∧
      (huggingfaceKwargs self).lookup "torch_dtype".data = none) ∧
    (self.device_type ≠ "cpu".data →
      (huggingfaceKwargs self).lookup "device_map".data =
        some (.str self.device_type) ∧
      (huggingfaceKwargs self).lookup "torch_dtype".data = some .float16) := by
  refine ⟨?_, ?_, ?_⟩
  · cases h : rt.hfAttempt <;> simp [load_huggingface_model, h]
  · intro h
    have hk : huggingfaceKwargs self =
        [("low_cpu_mem_usage".data, .bool true),
         ("resume_download".data, .bool true),
         ("trust_remote_code".data, .bool false)] := by
      simp [huggingfaceKwargs, h]
    rw [hk]
    exact ⟨rfl, rfl⟩
  · intro h
    have hk : huggingfaceKwargs self =
        [("low_cpu_mem_usage".data, .bool true),
         ("resume_download".data, .bool true),
         ("trust_remote_code".data, .bool false),
         ("device_map".data, .str self.device_type),
         ("torch_dtype".data, .float16)] := by
      simp [huggingfaceKwargs, h]
    rw [hk]
    exact ⟨rfl, rfl⟩

/-- Witness for C6: on `"cuda"` both options are present; the cpu loader
carries neither. -/
theorem huggingface_kwargs_device_options_witness :
    (huggingfaceKwargs hfLoader).lookup "device_map".data =
      some (.str hfLoader.device_type) ∧
    (huggingfaceKwargs hfLoader).lookup "torch_dtype".data = some .float16 :=
  (huggingface_kwargs_device_options hfLoader okRuntime).2.2 (by decide)

/-- Claim C7: the quantized strategy passes `gptqKwargs` of the normalized
state to the external loader; on `device_type = "cpu"` no CUDA
half-precision, triton or explicit device option is set, and on any other
device CUDA half-precision is on, `use_triton` is propagated from the
config, and the device string is exactly `device_type ++ ":0"`. -/
theorem gptq_kwargs_device_options {M T G : Type}
    (self : ModelLoader) (rt : Runtime M T G) :
    Event.callAutoGPTQFromQuantized self.model_repository
        (gptqKwargs
          { self with model_safetensors :=
              normalizeSafetensors self.model_safetensors })
      ∈ (load_gptq_model self rt).2.2 ∧
    (self.device_type = "cpu".data →
      (gptqKwargs self).lookup "use_cuda_fp16".data = none ∧
      (gptqKwargs self).lookup "use_triton".data = none ∧
      (gptqKwargs self).lookup "device".data = none) ∧
    (self.device_type ≠ "cpu".data →
      (gptqKwargs self).lookup "use_cuda_fp16".data = some (.bool true) ∧
      (gptqKwargs self).lookup "use_triton".data = some (.bool self.use_triton) ∧
      (gptqKwargs self).lookup "device".data =
        some (.str (self.device_type ++ ":0".data))) := by
  refine ⟨?_, ?_, ?_⟩
  · by_cases h : pyEndsWith self.model_safetensors ".safetensors".data <;>
      simp [load_gptq_model, h]
  · intro h
    have hk : gptqKwargs self =
        [("low_cpu_mem_usage".data, .bool true),
         ("resume_download".data, .bool true),
         ("trust_remote_code".data, .bool false),
         ("use_safetensors".data, .bool true),
         ("device_map".data, .str "auto".data),
         ("model_safetensors".data, .str self.model_safetensors)] := by
      simp [gptqKwargs, h]
    rw [hk]
    exact ⟨rfl, rfl, rfl⟩
  · intro h
    have hk : gptqKwargs self =
        [("low_cpu_mem_usage".data, .bool true),
         ("resume_download".data, .bool true),
         ("trust_remote_code".data, .bool false),
         ("use_safetensors".data, .bool true),
         ("device_map".data, .str "auto".data),
         ("model_safetensors".data, .str self.model_safetensors),
         ("use_cuda_fp16".data, .bool true),
         ("use_triton".data, .bool self.use_triton),
         ("device".data, .str (self.device_type ++ ":0".data))] := by
      simp [gptqKwargs, h]
    rw [hk]
    exact ⟨rfl, rfl, rfl⟩

/-- Witness for C7: on the `"cuda"` gptq loader the device string is
`"cuda:0"` and triton is propagated. -/
theorem gptq_kwargs_device_options_witness :
    (gptqKwargs gptqLoader).lookup "use_cuda_fp16".data = some (.bool true) ∧
    (gptqKwargs gptqLoader).lookup "use_triton".data =
      some (.bool gptqLoader.use_triton) ∧
    (gptqKwargs gptqLoader).lookup "device".data =
      some (.str (gptqLoader.device_type ++ ":0".data)) :=
  (gptq_kwargs_device_options gptqLoader okRuntime).2.2 (by decide)

/-- Helper for C8: any successful `load_model` result is a pipeline built
by `create_pipeline` from the selected strategy's own model and tokenizer
handles and the fetched generation config. -/
theorem load_model_ok_handles {M T G : Type} (self : ModelLoader)
    (rt : Runtime M T G) (llm : HuggingFacePipeline M T G) (self' : ModelLoader)
    (tr : List Event) (h : load_model self rt = (.ok llm, self', tr)) :
    (pyLower self.model_type = "huggingface".data ∧
      ∃ m isTuple, rt.hfAttempt = .ok m isTuple ∧
        llm = create_pipeline m rt.hfTokenizer rt.generationConfig) ∨
    (pyLower self.model_type = "huggingface-llama".data ∧
      llm = create_pipeline rt.llamaModel rt.llamaTokenizer rt.generationConfig) ∨
    (pyLower self.model_type = "gptq".data ∧
      llm = create_pipeline rt.gptqModel rt.gptqTokenizer rt.generationConfig) := by
  by_cases h1 : pyLower self.model_type = "huggingface".data
  · left
    refine ⟨h1, ?_⟩
    rw [load_model_hf_eq self rt h1] at h
    cases hA : rt.hfAttempt with
    | oom msg => simp [load_huggingface_model, hA] at h
    | ok m isTuple =>
        simp only [load_huggingface_model, hA, finishLoad, Prod.mk.injEq,
          LoadOutcome.ok.injEq] at h
        exact ⟨m, isTuple, rfl, h.1.symm⟩
  · by_cases h2 : pyLower self.model_type = "huggingface-llama".data
    · right; left
      refine ⟨h2, ?_⟩
      rw [load_model_llama_eq self rt h2] at h
      simp only [load_huggingface_llama_model, finishLoad, Prod.mk.injEq,
        LoadOutcome.ok.injEq] at h
      exact h.1.symm
    · by_cases h3 : pyLower self.model_type = "gptq".data
      · right; right
        refine ⟨h3, ?_⟩
        rw [load_model_gptq_eq self rt h3] at h
        simp only [load_gptq_model, finishLoad, Prod.mk.injEq,
          LoadOutcome.ok.injEq] at h
        exact h.1.symm
      · by_cases h4 : pyLower self.model_type = "ggml".data
        · rw [load_model_ggml_eq self rt h4] at h
          simp at h
        · rw [load_model_other_eq self rt h1 h2 h3 h4] at h
          simp at h

/-- Claim C8: every successful `load_model` call returns a pipeline
assembled by `create_pipeline` from the selected strategy's model handle
and tokenizer handle and the fetched generation config — the full-model
branch uses the model from the external load attempt and the huggingface
tokenizer, the Llama and quantized branches use their own runtime
handles — with decoding parameters exactly max length 512, temperature 0,
top-p 0.95, repetition penalty 1.15, for the task "text-generation". -/
theorem load_model_pipeline_params {M T G : Type} (self : ModelLoader)
    (rt : Runtime M T G) (llm : HuggingFacePipeline M T G) (self' : ModelLoader)
    (tr : List Event) (h : load_model self rt = (.ok llm, self', tr)) :
    llm.pipeline.params = ⟨512, 0, 95 / 100, 115 / 100⟩ ∧
    llm.pipeline.generation_config = rt.generationConfig ∧
    llm.pipeline.task = "text-generation".data ∧
    (pyLower self.model_type = "huggingface".data →
      ∃ m isTuple, rt.hfAttempt = .ok m isTuple ∧
        llm = create_pipeline m rt.hfTokenizer rt.generationConfig) ∧
    (pyLower self.model_type = "huggingface-llama".data →
      llm = create_pipeline rt.llamaModel rt.llamaTokenizer rt.generationConfig) ∧
    (pyLower self.model_type = "gptq".data →
      llm = create_pipeline rt.gptqModel rt.gptqTokenizer rt.generationConfig) := by
  rcases load_model_ok_handles self rt llm self' tr h with
    ⟨hty, m, isTuple, hA, rfl⟩ | ⟨hty, rfl⟩ | ⟨hty, rfl⟩
  · exact ⟨rfl, rfl, rfl,
      fun _ => ⟨m, isTuple, hA, rfl⟩,
      fun hx => absurd (hty.symm.trans hx) (by decide),
      fun hx => absurd (hty.symm.trans hx) (by decide)⟩
  · exact ⟨rfl, rfl, rfl,
      fun hx => absurd (hty.symm.trans hx) (by decide),
      fun _ => rfl,
      fun hx => absurd (hty.symm.trans hx) (by decide)⟩
  · exact ⟨rfl, rfl, rfl,
      fun hx => absurd (hty.symm.trans hx) (by decide),
      fun hx => absurd (hty.symm.trans hx) (by decide),
      fun _ => rfl⟩

/-- Witness for C8: a concrete successful huggingface load has the fixed
decoding parameters and is assembled from the full-model strategy's own
handles. -/
theorem load_model_pipeline_params_witness :
    (create_pipeline (M := Unit) (T := Unit) (G := Unit) () ()
        ()).pipeline.params = ⟨512, 0, 95 / 100, 115 / 100⟩ ∧
    (∃ m isTuple, okRuntime.hfAttempt = LoadAttempt.ok m isTuple ∧
      create_pipeline (M := Unit) (T := Unit) (G := Unit) () () () =
        create_pipeline m okRuntime.hfTokenizer okRuntime.generationConfig) := by
  obtain ⟨hp, -, -, hhf, -, -⟩ :=
    load_model_pipeline_params hfLoader okRuntime (create_pipeline () () ())
      ((load_model hfLoader okRuntime).2.1) ((load_model hfLoader okRuntime).2.2)
      rfl
  exact ⟨hp, hhf (by decide)⟩

/-- Claim C9: no strategy changes any stored configuration field except the
quantized strategy's in-place rewrite of `model_safetensors` (stripping a
trailing `.safetensors`); the full-model, Llama and ggml strategies return
`self` unchanged, and the quantized strategy leaves `device_type`,
`model_type`, `model_repository` and `use_triton` unchanged. -/
theorem strategies_frame {M T G : Type} (self : ModelLoader)
    (rt : Runtime M T G) :
    (load_huggingface_model self rt).2.1 = self ∧
    (load_huggingface_llama_model self rt).2.1 = self ∧
    (load_ggml_model (M := M) (T := T) self).2.1 = self ∧
    (load_gptq_model self rt).2.1.device_type = self.device_type ∧
    (load_gptq_model self rt).2.1.model_type = self.model_type ∧
    (load_gptq_model self rt).2.1.model_repository = self.model_repository ∧
    (load_gptq_model self rt).2.1.use_triton = self.use_triton ∧
    (load_gptq_model self rt).2.1.model_safetensors =
      normalizeSafetensors self.model_safetensors := by
  refine ⟨?_, rfl, rfl, rfl, rfl, rfl, rfl, rfl⟩
  cases h : rt.hfAttempt <;> simp [load_huggingface_model, h]

/-- Claim C10: calling the strategy method `load_ggml_model` directly
returns Python `None` with no effect and no error; the explicit
`NotImplementedError` for ggml is raised only in `load_model`'s dispatch,
with an empty trace, so the strategy method is never reached and never
signals the failure itself. -/
theorem load_ggml_model_returns_none {M T G : Type} (self : ModelLoader)
    (rt : Runtime M T G) (h : pyLower self.model_type = "ggml".data) :
    load_ggml_model (M := M) (T := T) self = (none, self, []) ∧
    load_model self rt =
      (.raised (.notImplementedError
        "GGML support is in research and development".data), self, []) :=
  ⟨rfl, load_model_ggml_eq self rt h⟩

/-- Witness for C10: the concrete ggml loader. -/
theorem load_ggml_model_returns_none_witness :
    load_ggml_model (M := Unit) (T := Unit) ggmlLoader = (none, ggmlLoader, []) ∧
    load_model ggmlLoader okRuntime =
      (.raised (.notImplementedError
        "GGML support is in research and development".data), ggmlLoader, []) :=
  load_ggml_model_returns_none ggmlLoader okRuntime (by decide)
